import Mathlib

deriving instance DecidableEq for Except

/-!
Verification of the SvaramAI chandas-identification engine.

This file gives a shallow embedding of the two code units the checked
claims are about:

* ChandasController.identify_chandas (src/controllers/chandas_controller.py):
  input validation, the known-verse lookup table, the single bounded LLM
  re-prompt for an Anushtubh/syllable-count mismatch, and the known-verse
  reconciliation step.
* ChandasService.identify_metre (src/services/chandas_service.py): the
  total wrapper around the external stuti-chandas library.

External effects (the OpenAI chat-completion calls, the stuti library) are
modelled as oracle parameters; everything else is translated directly from
the Python source.  Dictionaries whose fields the code reads optionally are
modelled as structures of Option-typed fields; JSON numbers are modelled as
exact rationals.
-/

namespace Svaram

/-- Characters stripped by the Python str.strip() call on the inputs this
repository handles (ASCII whitespace). -/
def isPyWhitespace (c : Char) : Bool :=
  c = ' ' || c = '\t' || c = '\n' || c = '\r' || c = '\x0b' || c = '\x0c'

/-- Python str.strip(): remove leading and trailing whitespace. -/
def pyStrip (s : String) : String :=
  String.mk (((s.toList.dropWhile isPyWhitespace).reverse.dropWhile
    isPyWhitespace).reverse)

/-- Occurrence of one character list as a contiguous segment of another;
the semantics of the Python `in` operator on strings. -/
def segmentOf (p : List Char) : List Char → Bool
  | [] => p.isEmpty
  | c :: t => p.isPrefixOf (c :: t) || segmentOf p t

/-- Python substring containment test (the `in` operator on str). -/
def isSubstr (needle hay : String) : Bool :=
  segmentOf needle.toList hay.toList

/-- The KNOWN_METERS dictionary of chandas_controller.py, as an association
list in Python dict insertion order. -/
def KNOWN_METERS : List (String × String) :=
  [("यदा यदा हि धर्मस्य", "Trishtubh"),
   ("कर्मण्येवाधिकारस्ते", "Anushtubh"),
   ("वसंसि जीर्णानि यथा", "Trishtubh"),
   ("कुरुक्षेत्रे महाक्षेत्रे", "Sragdhara"),
   ("मा निषाद प्रतिष्ठां", "Shardula-vikridita"),
   ("धर्मक्षेत्रे कुरुक्षेत्रे", "Anushtubh"),
   ("श्रद्धावाँल्लभते ज्ञानं", "Anushtubh"),
   ("योगस्थः कुरु कर्माणि", "Anushtubh"),
   ("बहूनां जन्मनामन्ते", "Anushtubh"),
   ("मनः प्रसादः सौम्यत्वं", "Anushtubh"),
   ("अश्वत्थः सर्ववृक्षाणां", "Trishtubh"),
   ("द्वादश प्राधयश्चक्रस्य", "Jagati")]

/-- The per-entry test of the known-verse loop:
`verse_start in text.strip()`. -/
def versMatch (text : String) (e : String × String) : Bool :=
  isSubstr e.1 (pyStrip text)

/-- The known-verse loop of identify_chandas (lines 42-49): scan
KNOWN_METERS in insertion order, stop at the first entry whose opening text
occurs in the stripped input. -/
def knownVerseLookup (text : String) : Option (String × String) :=
  KNOWN_METERS.find? (versMatch text)

/-- The decoded LLM JSON object, with exactly the fields the controller
reads.  Each field is optional, mirroring dictionary key presence; the two
fields whose values the controller never inspects (only their presence) are
presence markers. -/
structure LLMJson where
  chandas_name : Option String
  syllable_breakdown : Option Unit
  laghu_guru_pattern : Option String
  gana_pattern : Option String
  syllable_count_per_pada : Option (List Nat)
  confidence : Option ℚ
  explanation : Option String
  identification_process : Option Unit
  deriving DecidableEq, Repr

/-- Outcome of one chat-completion exchange as seen by the controller. -/
inductive LLMReply where
  | exn : LLMReply
  | malformed : LLMReply
  | ok : LLMJson → LLMReply
  deriving DecidableEq, Repr

/-- The `required` field list of identify_chandas (lines 138-142). -/
def requiredKeys : List String :=
  ["chandas_name", "syllable_breakdown", "laghu_guru_pattern",
   "gana_pattern", "syllable_count_per_pada", "confidence",
   "explanation", "identification_process"]

/-- Key-presence test on the decoded LLM JSON (`k in result`). -/
def hasKey (j : LLMJson) : String → Bool
  | "chandas_name" => j.chandas_name.isSome
  | "syllable_breakdown" => j.syllable_breakdown.isSome
  | "laghu_guru_pattern" => j.laghu_guru_pattern.isSome
  | "gana_pattern" => j.gana_pattern.isSome
  | "syllable_count_per_pada" => j.syllable_count_per_pada.isSome
  | "confidence" => j.confidence.isSome
  | "explanation" => j.explanation.isSome
  | "identification_process" => j.identification_process.isSome
  | _ => false

/-- The list `missing = [k for k in required if k not in result]`. -/
def missingFields (j : LLMJson) : List String :=
  requiredKeys.filter (fun k => !(hasKey j k))

/-- The error raised to the HTTP caller (fastapi HTTPException). -/
structure HTTPError where
  status : Nat
  detail : String
  deriving DecidableEq, Repr

/-- Python repr of a list of ints, as interpolated into the re-prompt. -/
def pyReprNatList (l : List Nat) : String :=
  "[" ++ String.intercalate ", " (l.map toString) ++ "]"

/-- The correct_meter_hint computation of identify_chandas (lines 158-162). -/
def meterHint (counts : List Nat) : String :=
  if counts.all (fun c => c == 12) then
    " This appears to be Jagati (12-12-12-12)."
  else if counts.all (fun c => c == 11) then
    " This appears to be Trishtubh (11-11-11-11)."
  else ""

/-- The corrective re-prompt text of identify_chandas (lines 165-168). -/
def reverifyPrompt (counts : List Nat) : String :=
  "This is NOT Anushtubh. The syllable count is " ++ pyReprNatList counts ++
  ", not 8-8-8-8." ++ meterHint counts ++
  " Re-identify the chandas correctly. Return the same JSON format."

/-- The final dictionary returned by identify_chandas: the LLM JSON fields
plus the identified_by metadata field added at line 196. -/
structure ChandasOut where
  chandas_name : Option String
  syllable_breakdown : Option Unit
  laghu_guru_pattern : Option String
  gana_pattern : Option String
  syllable_count_per_pada : Option (List Nat)
  confidence : Option ℚ
  explanation : Option String
  identification_process : Option Unit
  identified_by : String
  deriving DecidableEq, Repr

/-- Lift the LLM JSON to the output dictionary with a given identified_by. -/
def withIdBy (j : LLMJson) (idBy : String) : ChandasOut :=
  { chandas_name := j.chandas_name
    syllable_breakdown := j.syllable_breakdown
    laghu_guru_pattern := j.laghu_guru_pattern
    gana_pattern := j.gana_pattern
    syllable_count_per_pada := j.syllable_count_per_pada
    confidence := j.confidence
    explanation := j.explanation
    identification_process := j.identification_process
    identified_by := idBy }

/-- The LLM phase of identify_chandas (lines 116-181): the first
chat-completion call, JSON decoding, required-field validation, and the
single Anushtubh self-verification re-prompt.  The oracle llm maps a call
index and the user-prompt text of that call to the exchange outcome.
Returns the accepted JSON together with whether the re-prompt ran, and the
number of chat-completion calls made. -/
def llmPhase (text : String) (llm : Nat → String → LLMReply) :
    Except HTTPError (LLMJson × Bool) × Nat :=
  match llm 0 (pyStrip text) with
  | .exn => (.error ⟨500, "Internal error"⟩, 1)
  | .malformed => (.error ⟨500, "Failed to parse LLM response as JSON"⟩, 1)
  | .ok j =>
    if missingFields j ≠ [] then
      (.error ⟨500, "LLM response missing required fields"⟩, 1)
    else
      if j.chandas_name = some "Anushtubh" ∧
          j.syllable_count_per_pada.getD [] ≠ [] ∧
          j.syllable_count_per_pada.getD [] ≠ [8, 8, 8, 8] then
        match llm 1 (reverifyPrompt (j.syllable_count_per_pada.getD [])) with
        | .exn => (.error ⟨500, "Internal error"⟩, 2)
        | .malformed => (.error ⟨500, "Internal error"⟩, 2)
        | .ok j2 => (.ok (j2, true), 2)
      else
        (.ok (j, false), 1)

/-- The identified_by value as threaded by the Python before the known-verse
block: initialized to LLM (line 42), set to known_verse when the lookup hits
(line 47), overwritten to LLM_reverified when the re-prompt ran (line 181). -/
def preIdBy (known : Option (String × String)) (reverified : Bool) : String :=
  if reverified then "LLM_reverified"
  else if known.isSome then "known_verse"
  else "LLM"

/-- The reconciliation tail of identify_chandas (lines 183-196): the
known-verse block overwrites the threaded identified_by value. -/
def finalize : Option (String × String) → LLMJson → Bool → ChandasOut
  | none, j, reverified => withIdBy j (preIdBy none reverified)
  | some km, j, _ =>
    if j.chandas_name = some km.2 then
      { withIdBy j "both" with
          confidence := some (min (j.confidence.getD (4 / 5 : ℚ) + 1 / 10) 1) }
    else
      { withIdBy j "known_verse_override" with
          chandas_name := some km.2
          confidence := some ((9 : ℚ) / 10)
          explanation := some ("Known verse identified as " ++ km.2 ++ ". " ++
            j.explanation.getD "") }

/-- ChandasController.identify_chandas, as a function of the input text and
the chat-completion oracle.  The first component is the returned dictionary
or the HTTPException raised; the second counts chat-completion calls. -/
def identify_chandas (text : String) (llm : Nat → String → LLMReply) :
    Except HTTPError ChandasOut × Nat :=
  if text = "" ∨ pyStrip text = "" then
    (.error ⟨422, "Input text must be a non-empty string."⟩, 0)
  else
    match llmPhase text llm with
    | (.error e, n) => (.error e, n)
    | (.ok (j, rv), n) => (.ok (finalize (knownVerseLookup text) j rv), n)

/-- Per-pada syllable counts of the classical meters as stated by the
controller itself in its system prompt (chandas_controller.py lines
57-63). -/
def canonicalSyllables : String → Option Nat
  | "Anushtubh" => some 8
  | "Trishtubh" => some 11
  | "Jagati" => some 12
  | "Indravajra" => some 11
  | "Upendravajra" => some 11
  | "Shardula-vikridita" => some 19
  | "Mandakranta" => some 17
  | "Sragdhara" => some 21
  | "Vasantatilaka" => some 14
  | "Shikharini" => some 17
  | "Malini" => some 15
  | "Prithvi" => some 11
  | "Upajati" => some 11
  | _ => none

/-- The dictionary returned by the stuti library call, with exactly the keys
ChandasService.identify_metre reads (each optional). -/
structure StutiResult where
  name : Option String
  pattern : Option String
  laghu_guru : Option String
  confidence : Option ℚ
  syllable_count : Option (List Nat)
  gana : Option String
  deriving DecidableEq, Repr

/-- Outcome of the stuti-chandas library call as seen by the service: a
failed import, an exception with its message, or a returned value (none
models a falsy result object). -/
inductive StutiOutcome where
  | importError : StutiOutcome
  | exn : String → StutiOutcome
  | ret : Option StutiResult → StutiOutcome
  deriving DecidableEq, Repr

/-- The dictionary returned by ChandasService.identify_metre. -/
structure MetreInfo where
  metre : String
  scheme : String
  laghu_guru_pattern : String
  confidence : ℚ
  syllable_count : List Nat
  gana_pattern : String
  detected : Bool
  error : Option String
  deriving DecidableEq, Repr

/-- ChandasService.identify_metre (src/services/chandas_service.py), as a
function of the verse and the stuti-library oracle.  Total: every branch of
the Python returns a dictionary. -/
def identify_metre (verse : String) (stuti : String → StutiOutcome) :
    MetreInfo :=
  match stuti (pyStrip verse) with
  | .importError =>
    { metre := "Error", scheme := "", laghu_guru_pattern := ""
      confidence := 0, syllable_count := [], gana_pattern := ""
      detected := false, error := some "stuti-chandas library not available" }
  | .exn msg =>
    { metre := "Error", scheme := "", laghu_guru_pattern := ""
      confidence := 0, syllable_count := [], gana_pattern := ""
      detected := false, error := some msg }
  | .ret none =>
    { metre := "Unknown", scheme := "", laghu_guru_pattern := ""
      confidence := 0, syllable_count := [], gana_pattern := ""
      detected := false, error := none }
  | .ret (some r) =>
    { metre := r.name.getD "Unknown", scheme := r.pattern.getD ""
      laghu_guru_pattern := r.laghu_guru.getD ""
      confidence := r.confidence.getD 0
      syllable_count := r.syllable_count.getD []
      gana_pattern := r.gana.getD "", detected := true, error := none }

/-- A well-formed LLM response naming Jagati while reporting 8-syllable
padas: the canonical Jagati count (12) disagrees with the reported counts,
yet the name is not Anushtubh, so the controller's self-verification
does not fire. -/
def jagatiMiscount : LLMJson :=
  { chandas_name := some "Jagati"
    syllable_breakdown := some ()
    laghu_guru_pattern := some "GGLLGGLL"
    gana_pattern := some "ma-ya"
    syllable_count_per_pada := some [8, 8, 8, 8]
    confidence := some (19 / 20 : ℚ)
    explanation := some "sample"
    identification_process := some () }

/-- Chat oracle that always returns jagatiMiscount. -/
def llmJagatiMiscount : Nat → String → LLMReply :=
  fun _ _ => .ok jagatiMiscount

/-- A well-formed LLM response claiming Anushtubh with 11-syllable padas:
triggers the self-verification re-prompt. -/
def anushtubhMiscount : LLMJson :=
  { chandas_name := some "Anushtubh"
    syllable_breakdown := some ()
    laghu_guru_pattern := some "GGLLGGLLGGL"
    gana_pattern := some "ma-ya-ra"
    syllable_count_per_pada := some [11, 11, 11, 11]
    confidence := some (7 / 10 : ℚ)
    explanation := some "looks like Anushtubh"
    identification_process := some () }

/-- A well-formed LLM response naming Trishtubh, used as the re-prompted
answer. -/
def trishtubhAnswer : LLMJson :=
  { chandas_name := some "Trishtubh"
    syllable_breakdown := some ()
    laghu_guru_pattern := some "GGLLGGLLGGL"
    gana_pattern := some "ma-ya-ra"
    syllable_count_per_pada := some [11, 11, 11, 11]
    confidence := some (9 / 10 : ℚ)
    explanation := some "Trishtubh has 11 syllables per pada"
    identification_process := some () }

/-- Chat oracle answering anushtubhMiscount first and trishtubhAnswer on the
re-prompt. -/
def llmReverifyRun : Nat → String → LLMReply :=
  fun i _ => if i = 0 then .ok anushtubhMiscount else .ok trishtubhAnswer

/-- A well-formed LLM response naming Jagati with 12-syllable padas. -/
def jagatiAnswer : LLMJson :=
  { chandas_name := some "Jagati"
    syllable_breakdown := some ()
    laghu_guru_pattern := some "GGLLGGLLGGLL"
    gana_pattern := some "ma-ya-sa"
    syllable_count_per_pada := some [12, 12, 12, 12]
    confidence := some (19 / 20 : ℚ)
    explanation := some "twelve syllables"
    identification_process := some () }

/-- Chat oracle that always returns jagatiAnswer. -/
def llmJagati : Nat → String → LLMReply :=
  fun _ _ => .ok jagatiAnswer

/-- A well-formed LLM response naming Anushtubh with confidence 0.8 and a
consistent 8-8-8-8 count. -/
def anushtubhConfident : LLMJson :=
  { chandas_name := some "Anushtubh"
    syllable_breakdown := some ()
    laghu_guru_pattern := some "GGLLGGLL"
    gana_pattern := some "ma-ya"
    syllable_count_per_pada := some [8, 8, 8, 8]
    confidence := some (4 / 5 : ℚ)
    explanation := some "classic shloka"
    identification_process := some () }

/-- Chat oracle that always returns anushtubhConfident. -/
def llmAnushtubh : Nat → String → LLMReply :=
  fun _ _ => .ok anushtubhConfident

/-- Chat oracle whose responses never parse as JSON. -/
def llmMalformed : Nat → String → LLMReply :=
  fun _ _ => .malformed

/-- A verse opening that matches the sixth known-verse entry and no earlier
entry. -/
def gitaLine : String := "धर्मक्षेत्रे कुरुक्षेत्रे समवेता युयुत्सवः"

/-- A text containing both the first known-verse opening and the sixth: the
first entry wins the lookup. -/
def overlapText : String := "यदा यदा हि धर्मस्य धर्मक्षेत्रे कुरुक्षेत्रे"

/-- A verse opening that matches the second known-verse entry and no earlier
entry. -/
def karmaLine : String := "कर्मण्येवाधिकारस्ते मा फलेषु कदाचन"

/-! ### Basic lemmas about the string model -/

theorem toList_append (s t : String) :
    (s ++ t).toList = s.toList ++ t.toList :=
  String.data_append s t

theorem segmentOf_iff {p l : List Char} : segmentOf p l = true ↔ p <:+: l := by
  induction l with
  | nil => simp [segmentOf, List.isEmpty_iff, List.infix_nil]
  | cons c t ih =>
    simp [segmentOf, Bool.or_eq_true, ih, List.isPrefixOf_iff_prefix,
      List.infix_cons_iff]

theorem isSubstr_iff {p s : String} :
    isSubstr p s = true ↔ p.toList <:+: s.toList :=
  segmentOf_iff

theorem find?_decomp {α : Type} {p : α → Bool} :
    ∀ {l : List α} {a : α}, l.find? p = some a →
      ∃ l₁ l₂, l = l₁ ++ a :: l₂ ∧ p a = true ∧ ∀ x ∈ l₁, p x = false := by
  intro l
  induction l with
  | nil => intro a h; simp [List.find?] at h
  | cons c t ih =>
    intro a h
    rw [List.find?_cons] at h
    cases hc : p c with
    | false =>
      rw [hc] at h
      obtain ⟨l₁, l₂, hsplit, hpa, hall⟩ := ih h
      refine ⟨c :: l₁, l₂, by rw [hsplit]; rfl, hpa, ?_⟩
      intro x hx
      rcases List.mem_cons.mp hx with rfl | hx
      · exact hc
      · exact hall x hx
    | true =>
      rw [hc] at h
      cases h
      exact ⟨[], t, rfl, hc, by simp⟩

theorem infix_dropWhile_of_head {α : Type} {q : α → Bool} :
    ∀ {l p : List α} (hp : p ≠ []), q (p.head hp) = false →
      p <:+: l → p <:+: l.dropWhile q := by
  intro l
  induction l with
  | nil =>
    intro p hp _ h
    rw [List.infix_nil] at h
    exact absurd h hp
  | cons a t ih =>
    intro p hp hh h
    rw [List.dropWhile_cons]
    split
    · rename_i hqa
      obtain ⟨ph, pt, rfl⟩ := List.exists_cons_of_ne_nil hp
      rcases List.infix_cons_iff.mp h with hpre | hinf
      · obtain ⟨rfl, -⟩ := List.cons_prefix_cons.mp hpre
        rw [List.head_cons] at hh
        rw [hh] at hqa
        exact absurd hqa (by simp)
      · exact ih hp hh hinf
    · exact h

theorem infix_pyStrip {p : List Char} {s : String} (hp : p ≠ [])
    (hh : isPyWhitespace p.headI = false)
    (hl : isPyWhitespace p.getLastI = false)
    (h : p <:+: s.toList) : p <:+: (pyStrip s).toList := by
  have hh' : isPyWhitespace (p.head hp) = false := by
    obtain ⟨c, t, rfl⟩ := List.exists_cons_of_ne_nil hp
    exact hh
  have h1 : p <:+: s.toList.dropWhile isPyWhitespace :=
    infix_dropWhile_of_head hp hh' h
  have h2 : p.reverse <:+: (s.toList.dropWhile isPyWhitespace).reverse :=
    List.reverse_infix.mpr h1
  have hrp : p.reverse ≠ [] := by simpa using hp
  have hh2 : isPyWhitespace (p.reverse.head hrp) = false := by
    rw [List.getLastI_eq_getLast?, List.getLast?_eq_getLast p hp] at hl
    rw [List.head_reverse]
    exact hl
  have h3 : p.reverse <:+:
      ((s.toList.dropWhile isPyWhitespace).reverse.dropWhile isPyWhitespace) :=
    infix_dropWhile_of_head hrp hh2 h2
  have h4 := List.reverse_infix.mpr h3
  rw [List.reverse_reverse] at h4
  exact h4

theorem string_ne_empty_of_toList {s : String} (h : s.toList ≠ []) :
    s ≠ "" := by
  intro he
  rw [he] at h
  exact h rfl

/-! ### Unfolding lemmas for the controller embedding -/

theorem valid_of_strip_ne {text : String} (hs : pyStrip text ≠ "") :
    ¬(text = "" ∨ pyStrip text = "") := by
  rintro (rfl | h)
  · exact hs rfl
  · exact hs h

theorem identify_eq_of_ok {text : String} {llm : Nat → String → LLMReply}
    {j : LLMJson} {rv : Bool} {n : Nat} (hs : pyStrip text ≠ "")
    (hp : llmPhase text llm = (.ok (j, rv), n)) :
    identify_chandas text llm =
      (.ok (finalize (knownVerseLookup text) j rv), n) := by
  unfold identify_chandas
  rw [if_neg (valid_of_strip_ne hs), hp]

theorem identify_eq_of_error {text : String} {llm : Nat → String → LLMReply}
    {e : HTTPError} {n : Nat} (hs : pyStrip text ≠ "")
    (hp : llmPhase text llm = (.error e, n)) :
    identify_chandas text llm = (.error e, n) := by
  unfold identify_chandas
  rw [if_neg (valid_of_strip_ne hs), hp]

theorem llmPhase_exn {text : String} {llm : Nat → String → LLMReply}
    (h : llm 0 (pyStrip text) = .exn) :
    llmPhase text llm = (.error ⟨500, "Internal error"⟩, 1) := by
  unfold llmPhase
  rw [h]

theorem llmPhase_malformed {text : String} {llm : Nat → String → LLMReply}
    (h : llm 0 (pyStrip text) = .malformed) :
    llmPhase text llm =
      (.error ⟨500, "Failed to parse LLM response as JSON"⟩, 1) := by
  unfold llmPhase
  rw [h]

theorem llmPhase_missing {text : String} {llm : Nat → String → LLMReply}
    {j : LLMJson} (h0 : llm 0 (pyStrip text) = .ok j)
    (hm : missingFields j ≠ []) :
    llmPhase text llm =
      (.error ⟨500, "LLM response missing required fields"⟩, 1) := by
  unfold llmPhase
  rw [h0]
  simp [hm]

theorem llmPhase_no_reverify {text : String} {llm : Nat → String → LLMReply}
    {j : LLMJson} (h0 : llm 0 (pyStrip text) = .ok j)
    (hm : missingFields j = [])
    (hc : ¬(j.chandas_name = some "Anushtubh" ∧
        j.syllable_count_per_pada.getD [] ≠ [] ∧
        j.syllable_count_per_pada.getD [] ≠ [8, 8, 8, 8])) :
    llmPhase text llm = (.ok (j, false), 1) := by
  simp only [llmPhase, h0]
  rw [if_neg (by simp [hm]), if_neg hc]

theorem llmPhase_reverify {text : String} {llm : Nat → String → LLMReply}
    {j j2 : LLMJson} (h0 : llm 0 (pyStrip text) = .ok j)
    (hm : missingFields j = [])
    (hname : j.chandas_name = some "Anushtubh")
    (hc1 : j.syllable_count_per_pada.getD [] ≠ [])
    (hc2 : j.syllable_count_per_pada.getD [] ≠ [8, 8, 8, 8])
    (h1 : llm 1 (reverifyPrompt (j.syllable_count_per_pada.getD [])) =
      .ok j2) :
    llmPhase text llm = (.ok (j2, true), 2) := by
  simp only [llmPhase, h0]
  rw [if_neg (by simp [hm]), if_pos ⟨hname, hc1, hc2⟩, h1]

theorem llmPhase_le_two (text : String) (llm : Nat → String → LLMReply) :
    (llmPhase text llm).2 ≤ 2 := by
  rcases h0 : llm 0 (pyStrip text) with _ | _ | j
  · simp [llmPhase, h0]
  · simp [llmPhase, h0]
  · simp only [llmPhase, h0]
    split
    · simp
    · split
      · rcases h1 : llm 1 (reverifyPrompt (j.syllable_count_per_pada.getD []))
          with _ | _ | j2 <;> simp [h1]
      · simp

theorem finalize_none {j : LLMJson} {rv : Bool} :
    finalize none j rv =
      withIdBy j (if rv then "LLM_reverified" else "LLM") := by
  cases rv <;> rfl

theorem finalize_both {km : String × String} {j : LLMJson} {rv : Bool}
    (h : j.chandas_name = some km.2) :
    finalize (some km) j rv =
      { withIdBy j "both" with
          confidence := some (min (j.confidence.getD (4 / 5 : ℚ) + 1 / 10) 1) } := by
  simp only [finalize]
  rw [if_pos h]

theorem finalize_override {km : String × String} {j : LLMJson} {rv : Bool}
    (h : ¬(j.chandas_name = some km.2)) :
    finalize (some km) j rv =
      { withIdBy j "known_verse_override" with
          chandas_name := some km.2
          confidence := some ((9 : ℚ) / 10)
          explanation := some ("Known verse identified as " ++ km.2 ++ ". " ++
            j.explanation.getD "") } := by
  simp only [finalize]
  rw [if_neg h]

/-! ### Claim theorems -/

/-- Claim C5: the LLM collaborator is invoked at most twice per
identify_chandas call, for every input and every oracle behavior. -/
theorem C5_thm (text : String) (llm : Nat → String → LLMReply) :
    (identify_chandas text llm).2 ≤ 2 := by
  unfold identify_chandas
  split
  · simp
  · rcases hp : llmPhase text llm with ⟨r, n⟩
    have hle := llmPhase_le_two text llm
    rw [hp] at hle
    rcases r with e | ⟨j, rv⟩ <;> simpa using hle

/-- Claim C8: empty or whitespace-only input makes identify_chandas raise
the 422 input-validation error, with zero LLM calls and no result. -/
theorem C8_thm (text : String) (llm : Nat → String → LLMReply)
    (h : text = "" ∨ pyStrip text = "") :
    identify_chandas text llm =
      (.error ⟨422, "Input text must be a non-empty string."⟩, 0) := by
  unfold identify_chandas
  rw [if_pos h]

/-- Claim C8 witness: the two boundary inputs, the empty string and a
whitespace-only string. -/
theorem C8_witness :
    identify_chandas "" llmMalformed =
      (.error ⟨422, "Input text must be a non-empty string."⟩, 0) ∧
    identify_chandas "   \n  " llmMalformed =
      (.error ⟨422, "Input text must be a non-empty string."⟩, 0) :=
  ⟨C8_thm "" llmMalformed (Or.inl rfl),
   C8_thm "   \n  " llmMalformed (Or.inr (by decide))⟩

/-- Claim C9: every dictionary returned by identify_chandas carries an
identified_by value among LLM, LLM_reverified, both, known_verse_override;
the intermediate known_verse value never survives reconciliation. -/
theorem C9_thm (text : String) (llm : Nat → String → LLMReply)
    (out : ChandasOut) (h : (identify_chandas text llm).1 = .ok out) :
    out.identified_by = "LLM" ∨ out.identified_by = "LLM_reverified" ∨
    out.identified_by = "both" ∨
    out.identified_by = "known_verse_override" := by
  unfold identify_chandas at h
  by_cases hv : text = "" ∨ pyStrip text = ""
  · rw [if_pos hv] at h
    simp at h
  · rw [if_neg hv] at h
    rcases hp : llmPhase text llm with ⟨r, n⟩
    rw [hp] at h
    rcases r with e | ⟨j, rv⟩
    · simp at h
    · have hfo : finalize (knownVerseLookup text) j rv = out := by
        simpa using h
      subst hfo
      rcases hk : knownVerseLookup text with _ | km
      · rw [finalize_none]
        cases rv <;> simp [withIdBy]
      · by_cases hn : j.chandas_name = some km.2
        · rw [finalize_both hn]
          simp [withIdBy]
        · rw [finalize_override hn]
          simp [withIdBy]

/-- Claim C9 witness: a concrete successful run. -/
theorem C9_witness :
    (withIdBy jagatiAnswer "LLM").identified_by = "LLM" ∨
    (withIdBy jagatiAnswer "LLM").identified_by = "LLM_reverified" ∨
    (withIdBy jagatiAnswer "LLM").identified_by = "both" ∨
    (withIdBy jagatiAnswer "LLM").identified_by = "known_verse_override" :=
  C9_thm "मङ्गलम्" llmJagati (withIdBy jagatiAnswer "LLM") rfl

/-- Claim C10: identify_metre is total (each branch returns a dictionary);
a missing library or an exception yields metre Error with an error field, a
falsy library result yields metre Unknown, and every failure case has
detected false and confidence zero. -/
theorem C10_thm (verse : String) (stuti : String → StutiOutcome) :
    (stuti (pyStrip verse) = .importError →
      identify_metre verse stuti =
        { metre := "Error", scheme := "", laghu_guru_pattern := ""
          confidence := 0, syllable_count := [], gana_pattern := ""
          detected := false
          error := some "stuti-chandas library not available" })
  ∧ (∀ msg, stuti (pyStrip verse) = .exn msg →
      identify_metre verse stuti =
        { metre := "Error", scheme := "", laghu_guru_pattern := ""
          confidence := 0, syllable_count := [], gana_pattern := ""
          detected := false, error := some msg })
  ∧ (stuti (pyStrip verse) = .ret none →
      identify_metre verse stuti =
        { metre := "Unknown", scheme := "", laghu_guru_pattern := ""
          confidence := 0, syllable_count := [], gana_pattern := ""
          detected := false, error := none })
  ∧ ((identify_metre verse stuti).detected = false →
      (identify_metre verse stuti).confidence = 0) := by
  refine ⟨?_, ?_, ?_, ?_⟩
  · intro h
    unfold identify_metre
    rw [h]
  · intro msg h
    unfold identify_metre
    rw [h]
  · intro h
    unfold identify_metre
    rw [h]
  · unfold identify_metre
    rcases h : stuti (pyStrip verse) with _ | msg | r
    · intro; rfl
    · intro; rfl
    · rcases r with _ | r
      · intro; rfl
      · intro hd
        simp at hd

/-- Claim C10 witness: the import-failure case. -/
theorem C10_witness :
    identify_metre "क" (fun _ => .importError) =
      { metre := "Error", scheme := "", laghu_guru_pattern := ""
        confidence := 0, syllable_count := [], gana_pattern := ""
        detected := false
        error := some "stuti-chandas library not available" } :=
  (C10_thm "क" (fun _ => .importError)).1 rfl

/-- Claim C2, counterexample to the claim as stated: with a valid input and
an LLM response that fails JSON parsing, identify_chandas raises an HTTP
500 error to the caller instead of producing any fallback result. -/
theorem C2_counterexample :
    identify_chandas "शरणम्" llmMalformed =
      (.error ⟨500, "Failed to parse LLM response as JSON"⟩, 1) := by
  decide

/-- Claim C2 as amended: whenever the LLM exchange fails (the call raises,
the content is not valid JSON, or required fields are missing), the failure
is raised to the caller as an HTTP 500 error; no fallback path exists. -/
theorem C2_thm (text : String) (llm : Nat → String → LLMReply)
    (hs : pyStrip text ≠ "") :
    (llm 0 (pyStrip text) = .exn →
      identify_chandas text llm = (.error ⟨500, "Internal error"⟩, 1))
  ∧ (llm 0 (pyStrip text) = .malformed →
      identify_chandas text llm =
        (.error ⟨500, "Failed to parse LLM response as JSON"⟩, 1))
  ∧ (∀ j, llm 0 (pyStrip text) = .ok j → missingFields j ≠ [] →
      identify_chandas text llm =
        (.error ⟨500, "LLM response missing required fields"⟩, 1)) := by
  refine ⟨fun h => ?_, fun h => ?_, fun j h hm => ?_⟩
  · exact identify_eq_of_error hs (llmPhase_exn h)
  · exact identify_eq_of_error hs (llmPhase_malformed h)
  · exact identify_eq_of_error hs (llmPhase_missing h hm)

/-- Claim C2 witness: the malformed-JSON case at a concrete input. -/
theorem C2_witness :
    identify_chandas "मङ्गलम्" llmMalformed =
      (.error ⟨500, "Failed to parse LLM response as JSON"⟩, 1) :=
  (C2_thm "मङ्गलम्" llmMalformed (by decide)).2.1 rfl

/-- Claim C1, counterexample to the claim as stated: the LLM names Jagati
(canonically 12 syllables per pada) while reporting 8-8-8-8, a canonical
mismatch, yet the controller makes only one LLM call and keeps
identified_by = LLM: the self-verification fires only on the name
Anushtubh. -/
theorem C1_counterexample :
    canonicalSyllables "Jagati" = some 12 ∧
    jagatiMiscount.chandas_name = some "Jagati" ∧
    jagatiMiscount.syllable_count_per_pada = some [8, 8, 8, 8] ∧
    identify_chandas "मङ्गलाचरणम्" llmJagatiMiscount =
      (.ok (withIdBy jagatiMiscount "LLM"), 1) :=
  ⟨rfl, rfl, rfl, rfl⟩

/-- Claim C1 as amended: when the LLM result names Anushtubh with a
non-empty reported count different from 8-8-8-8, exactly one corrective
re-prompt is issued (two calls total), its text contains the reported
counts, the re-prompted result is accepted unconditionally, and absent a
known-verse match the result is marked LLM_reverified. -/
theorem C1_thm (text : String) (llm : Nat → String → LLMReply)
    (j j2 : LLMJson) (hs : pyStrip text ≠ "")
    (h0 : llm 0 (pyStrip text) = .ok j)
    (hm : missingFields j = [])
    (hname : j.chandas_name = some "Anushtubh")
    (hc1 : j.syllable_count_per_pada.getD [] ≠ [])
    (hc2 : j.syllable_count_per_pada.getD [] ≠ [8, 8, 8, 8])
    (h1 : llm 1 (reverifyPrompt (j.syllable_count_per_pada.getD [])) = .ok j2)
    (hk : knownVerseLookup text = none) :
    identify_chandas text llm = (.ok (withIdBy j2 "LLM_reverified"), 2) ∧
    isSubstr (pyReprNatList (j.syllable_count_per_pada.getD []))
      (reverifyPrompt (j.syllable_count_per_pada.getD [])) = true := by
  constructor
  · rw [identify_eq_of_ok hs (llmPhase_reverify h0 hm hname hc1 hc2 h1), hk]
    rfl
  · rw [isSubstr_iff]
    refine ⟨("This is NOT Anushtubh. The syllable count is " : String).toList,
      (", not 8-8-8-8." ++ meterHint (j.syllable_count_per_pada.getD []) ++
        " Re-identify the chandas correctly. Return the same JSON format.").toList,
      ?_⟩
    simp [reverifyPrompt, toList_append, List.append_assoc]

/-- Claim C1 witness: a concrete run in which the first answer claims
Anushtubh over 11-11-11-11 and the re-prompted answer is accepted. -/
theorem C1_witness :
    identify_chandas "मङ्गलम्" llmReverifyRun =
      (.ok (withIdBy trishtubhAnswer "LLM_reverified"), 2) ∧
    isSubstr (pyReprNatList
        (anushtubhMiscount.syllable_count_per_pada.getD []))
      (reverifyPrompt
        (anushtubhMiscount.syllable_count_per_pada.getD [])) = true :=
  C1_thm "मङ्गलम्" llmReverifyRun anushtubhMiscount trishtubhAnswer
    (by decide) rfl rfl rfl (by decide) (by decide) rfl (by decide)

/-- Claim C3, counterexample to the claim as stated: a text containing the
substring धर्मक्षेत्रे कुरुक्षेत्रे but also the earlier table entry यदा यदा हि धर्मस्य
is overridden to Trishtubh, not Anushtubh, because the first match in
insertion order wins. -/
theorem C3_counterexample :
    isSubstr "धर्मक्षेत्रे कुरुक्षेत्रे" overlapText = true ∧
    jagatiAnswer.chandas_name = some "Jagati" ∧
    (identify_chandas overlapText llmJagati).1 = .ok
      { withIdBy jagatiAnswer "known_verse_override" with
          chandas_name := some "Trishtubh"
          confidence := some ((9 : ℚ) / 10)
          explanation := some ("Known verse identified as Trishtubh. " ++
            jagatiAnswer.explanation.getD "") } ∧
    (identify_chandas overlapText llmJagati).1.map
      (fun out => out.chandas_name) ≠ Except.ok (some "Anushtubh") :=
  ⟨by decide, rfl, rfl, by
    intro hcon
    have : some "Trishtubh" = some "Anushtubh" := by
      have h2 : (identify_chandas overlapText llmJagati).1.map
          (fun out => out.chandas_name) = Except.ok (some "Trishtubh") := rfl
      rw [h2] at hcon
      exact Except.ok.inj hcon
    simp at this⟩

/-- Claim C3 as amended: for every input containing धर्मक्षेत्रे कुरुक्षेत्रे and
matching no earlier known-verse entry, an LLM result naming any meter other
than Anushtubh is overridden: chandas_name Anushtubh, confidence 0.9,
identified_by known_verse_override, explanatory note prepended. -/
theorem C3_thm (text : String) (llm : Nat → String → LLMReply)
    (j : LLMJson) (rv : Bool) (n : Nat) (nm : String)
    (hsub : isSubstr "धर्मक्षेत्रे कुरुक्षेत्रे" text = true)
    (hearlier : ∀ e ∈ KNOWN_METERS.take 5, versMatch text e = false)
    (hp : llmPhase text llm = (.ok (j, rv), n))
    (hname : j.chandas_name = some nm) (hnm : nm ≠ "Anushtubh") :
    (identify_chandas text llm).1 = .ok
      { withIdBy j "known_verse_override" with
          chandas_name := some "Anushtubh"
          confidence := some ((9 : ℚ) / 10)
          explanation := some ("Known verse identified as " ++ "Anushtubh" ++
            ". " ++ j.explanation.getD "") } := by
  have hlist : ("धर्मक्षेत्रे कुरुक्षेत्रे" : String).toList <:+: text.toList :=
    isSubstr_iff.mp hsub
  have hne : ("धर्मक्षेत्रे कुरुक्षेत्रे" : String).toList ≠ [] := by decide
  have hstrip : ("धर्मक्षेत्रे कुरुक्षेत्रे" : String).toList <:+:
      (pyStrip text).toList :=
    infix_pyStrip hne (by decide) (by decide) hlist
  have hmatch : versMatch text ("धर्मक्षेत्रे कुरुक्षेत्रे", "Anushtubh") = true :=
    isSubstr_iff.mpr hstrip
  have hsne : pyStrip text ≠ "" := by
    apply string_ne_empty_of_toList
    intro h0
    rw [h0, List.infix_nil] at hstrip
    exact hne hstrip
  have hkv : knownVerseLookup text =
      some ("धर्मक्षेत्रे कुरुक्षेत्रे", "Anushtubh") := by
    have e0 := hearlier ("यदा यदा हि धर्मस्य", "Trishtubh") (by decide)
    have e1 := hearlier ("कर्मण्येवाधिकारस्ते", "Anushtubh") (by decide)
    have e2 := hearlier ("वसंसि जीर्णानि यथा", "Trishtubh") (by decide)
    have e3 := hearlier ("कुरुक्षेत्रे महाक्षेत्रे", "Sragdhara") (by decide)
    have e4 := hearlier ("मा निषाद प्रतिष्ठां", "Shardula-vikridita") (by decide)
    simp only [knownVerseLookup, KNOWN_METERS, List.find?_cons,
      e0, e1, e2, e3, e4, hmatch]
  rw [identify_eq_of_ok hsne hp]
  show Except.ok (finalize (knownVerseLookup text) j rv) = _
  rw [hkv, finalize_override (by simp [hname, hnm])]

/-- Claim C3 witness: a Gita opening line matching only the sixth entry,
with the LLM naming Jagati. -/
theorem C3_witness :
    (identify_chandas gitaLine llmJagati).1 = .ok
      { withIdBy jagatiAnswer "known_verse_override" with
          chandas_name := some "Anushtubh"
          confidence := some ((9 : ℚ) / 10)
          explanation := some ("Known verse identified as " ++ "Anushtubh" ++
            ". " ++ jagatiAnswer.explanation.getD "") } :=
  C3_thm gitaLine llmJagati jagatiAnswer false 1 "Jagati"
    (by decide) (by decide) rfl rfl (by decide)

/-- Claim C4: when a known-verse entry matched and the (possibly
reverified) LLM result names the same meter with confidence c, the final
result is marked both with confidence min (c + 0.1) 1. -/
theorem C4_thm (text : String) (llm : Nat → String → LLMReply)
    (j : LLMJson) (rv : Bool) (n : Nat) (v m : String) (c : ℚ)
    (hs : pyStrip text ≠ "")
    (hk : knownVerseLookup text = some (v, m))
    (hp : llmPhase text llm = (.ok (j, rv), n))
    (hname : j.chandas_name = some m)
    (hconf : j.confidence = some c) :
    (identify_chandas text llm).1 = .ok
      { withIdBy j "both" with
          confidence := some (min (c + 1 / 10) 1) } := by
  rw [identify_eq_of_ok hs hp]
  show Except.ok (finalize (knownVerseLookup text) j rv) = _
  rw [hk, finalize_both (by rw [hname]), hconf]
  rfl

/-- Claim C4 witness: LLM confidence 0.8 agreeing with the known verse
yields final confidence 0.9 and identified_by both. -/
theorem C4_witness :
    (identify_chandas karmaLine llmAnushtubh).1 = .ok
      { withIdBy anushtubhConfident "both" with
          confidence := some ((9 : ℚ) / 10) } := by
  have h := C4_thm karmaLine llmAnushtubh anushtubhConfident false 1
    "कर्मण्येवाधिकारस्ते" "Anushtubh" (4 / 5) (by decide) (by decide) rfl rfl rfl
  have hmin : min ((4 : ℚ) / 5 + 1 / 10) 1 = 9 / 10 := by
    rw [show ((4 : ℚ) / 5 + 1 / 10) = 9 / 10 by norm_num]
    exact min_eq_left (by norm_num)
  rw [h, hmin]

/-- Claim C6: the corrective re-prompt carries a Jagati hint when the
reported counts are uniformly 12, a Trishtubh hint when uniformly 11, and
otherwise only the count mismatch with no meter hint. -/
theorem C6_thm (counts : List Nat) (hne : counts ≠ []) :
    (counts.all (fun c => c == 12) = true →
      isSubstr " This appears to be Jagati (12-12-12-12)."
        (reverifyPrompt counts) = true)
  ∧ (counts.all (fun c => c == 11) = true →
      isSubstr " This appears to be Trishtubh (11-11-11-11)."
        (reverifyPrompt counts) = true)
  ∧ (counts.all (fun c => c == 12) = false →
      counts.all (fun c => c == 11) = false →
      meterHint counts = "" ∧
      reverifyPrompt counts =
        "This is NOT Anushtubh. The syllable count is " ++
        pyReprNatList counts ++ ", not 8-8-8-8." ++
        " Re-identify the chandas correctly. Return the same JSON format.") := by
  refine ⟨?_, ?_, ?_⟩
  · intro h12
    rw [isSubstr_iff]
    refine ⟨("This is NOT Anushtubh. The syllable count is " ++
        pyReprNatList counts ++ ", not 8-8-8-8.").toList,
      (" Re-identify the chandas correctly. Return the same JSON format." :
        String).toList, ?_⟩
    simp [reverifyPrompt, meterHint, h12, toList_append, List.append_assoc]
  · intro h11
    have h12 : counts.all (fun c => c == 12) = false := by
      obtain ⟨c, rest, rfl⟩ := List.exists_cons_of_ne_nil hne
      rw [List.all_cons] at h11 ⊢
      have hc : c = 11 := by
        rcases hb : (c == 11) with _ | _
        · rw [hb] at h11
          simp at h11
        · simpa using hb
      subst hc
      simp
    rw [isSubstr_iff]
    refine ⟨("This is NOT Anushtubh. The syllable count is " ++
        pyReprNatList counts ++ ", not 8-8-8-8.").toList,
      (" Re-identify the chandas correctly. Return the same JSON format." :
        String).toList, ?_⟩
    simp [reverifyPrompt, meterHint, h12, h11, toList_append,
      List.append_assoc]
  · intro h12 h11
    constructor
    · simp [meterHint, h12, h11]
    · apply String.ext
      simp [reverifyPrompt, meterHint, h12, h11, String.data_append]

/-- Claim C6 witness: counts 12-12-12-12 produce the Jagati hint. -/
theorem C6_witness :
    isSubstr " This appears to be Jagati (12-12-12-12)."
      (reverifyPrompt [12, 12, 12, 12]) = true :=
  (C6_thm [12, 12, 12, 12] (by decide)).1 (by decide)

/-- Claim C7: the known-verse lookup returns exactly the first entry of
KNOWN_METERS, in insertion order, whose opening text occurs as a substring
of the stripped input, and none when no entry occurs. -/
theorem C7_thm (text : String) :
    (knownVerseLookup text = none ↔
      ∀ e ∈ KNOWN_METERS, versMatch text e = false)
  ∧ (∀ e, knownVerseLookup text = some e →
      versMatch text e = true ∧
      ∃ l₁ l₂, KNOWN_METERS = l₁ ++ e :: l₂ ∧
        ∀ x ∈ l₁, versMatch text x = false)
  ∧ (∀ e : String × String,
      versMatch text e = true ↔
        ∃ pre post, (pyStrip text).toList = pre ++ e.1.toList ++ post) := by
  refine ⟨?_, ?_, ?_⟩
  · unfold knownVerseLookup
    rw [List.find?_eq_none]
    constructor
    · intro h e he
      simpa using h e he
    · intro h e he
      simp [h e he]
  · intro e he
    obtain ⟨l₁, l₂, hsplit, hpa, hall⟩ := find?_decomp he
    exact ⟨hpa, l₁, l₂, hsplit, hall⟩
  · intro e
    rw [show versMatch text e = isSubstr e.1 (pyStrip text) from rfl,
      isSubstr_iff]
    constructor
    · rintro ⟨a, b, hab⟩
      exact ⟨a, b, hab.symm⟩
    · rintro ⟨a, b, hab⟩
      exact ⟨a, b, hab.symm⟩

/-- Claim C7 witness: the sixth entry is returned for a matching input, and
the five entries before it do not match. -/
theorem C7_witness :
    versMatch gitaLine ("धर्मक्षेत्रे कुरुक्षेत्रे", "Anushtubh") = true ∧
    ∃ l₁ l₂, KNOWN_METERS = l₁ ++ ("धर्मक्षेत्रे कुरुक्षेत्रे", "Anushtubh") :: l₂ ∧
      ∀ x ∈ l₁, versMatch gitaLine x = false :=
  (C7_thm gitaLine).2.1 ("धर्मक्षेत्रे कुरुक्षेत्रे", "Anushtubh") (by decide)

end Svaram
